import Mathlib

/-!
Verification development for the organelle inference modules
`infer_subc_2d/organelles/cytosol.py` and `infer_subc_2d/organelles/golgi.py`.

Image volumes are embedded as flattened voxel lists: a mask volume is a
`List Bool` (one entry per voxel, e.g. a 3x4x4 volume has 48 entries), and a
raw/intensity volume is an abstract type `V`.  The primitive image operators
and the persistence adapters live outside these two modules; they are embedded
as abstract function parameters gathered in structures, so every theorem holds
for every implementation of the primitives.  Elementwise numpy booleans
(`np.logical_xor`, `np.logical_or`) are concrete, since their semantics is
fixed by numpy.
-/

/-- Elementwise `np.logical_xor` on flattened same-shape boolean volumes. -/
def logical_xor (a b : List Bool) : List Bool :=
  List.zipWith Bool.xor a b

/-- Elementwise `np.logical_or` on flattened same-shape boolean volumes. -/
def logical_or (a b : List Bool) : List Bool :=
  List.zipWith Bool.or a b

/-- The primitive operators imported by `cytosol.py`:
`apply_mask` (from `infer_subc_2d.utils.img`) and `binary_erosion`
(from `skimage.morphology`), embedded as abstract functions. -/
structure CytoPrims where
  apply_mask : List Bool → List Bool → List Bool
  binary_erosion : List Bool → List Bool

/-- Embedding of `infer_cytosol` (cytosol.py lines 12-38): computes the
soma-masked nucleus, then returns the XOR of the soma mask with the
(optionally eroded) unmasked nucleus object.  The masked value
`nucleus_obj` is bound but never used, exactly as in the source. -/
def infer_cytosol (C : CytoPrims) (nuclei_object : List Bool)
    (soma_mask : List Bool) (erode_nuclei : Bool) : List Bool :=
  let nucleus_obj := C.apply_mask nuclei_object soma_mask
  let _ := nucleus_obj
  if erode_nuclei then
    logical_xor soma_mask (C.binary_erosion nuclei_object)
  else
    logical_xor soma_mask nuclei_object

/-- Storage-layer fault of the persistence adapter (`PersistenceFailure`
in the spec's error taxonomy): an I/O error distinct from "not found". -/
inductive PersistFault where
  | ioFailure
  deriving DecidableEq, Repr

/-- Lookup outcome signalled by the golgi-side persistence adapter, which
raises on absence: either a not-found signal or a storage-layer fault. -/
inductive GolgiLookupSignal where
  | notFound
  | ioFailure
  deriving DecidableEq, Repr

/-- Observable actions of the memoized orchestrators: invoking the organelle
algorithm, exporting a mask, and the print statements of the source. -/
inductive OrchEvent where
  | invokedAlgorithm
  | exported (mask : List Bool)
  | printedWrote
  | printedLoaded
  | printedStarting
  | printedTiming
  deriving DecidableEq, Repr

/-- Persistence adapter used by `cytosol.py`
(`infer_subc_2d.utils.file_io`): `import_inferred_organelle` returns the
cached mask or `none` when absent, and may raise a storage fault, which the
cytosol module does not catch; `export_inferred_organelle` returns the
written file name. -/
structure CytoPersist (Meta Pth : Type) where
  import_inferred_organelle :
    String → Meta → Pth → Except PersistFault (Option (List Bool))
  export_inferred_organelle :
    List Bool → String → Meta → Pth → String

/-- Persistence adapter used by `golgi.py` (`infer_subc_2d.core.file_io`):
`import_inferred_organelle` raises (not-found signal or storage fault)
instead of returning a sentinel. -/
structure GolgiPersist (Meta Pth : Type) where
  import_inferred_organelle :
    String → Meta → Pth → Except GolgiLookupSignal (List Bool)
  export_inferred_organelle :
    List Bool → String → Meta → Pth → String

/-- Embedding of `infer_and_export_cytosol` (cytosol.py lines 41-67):
computes `infer_cytosol` at its default `erode_nuclei=True`, exports the
mask, prints, and returns the mask together with its observable actions. -/
def infer_and_export_cytosol {Meta Pth : Type} (A : CytoPersist Meta Pth)
    (C : CytoPrims) (nuclei_object soma_mask : List Bool)
    (meta_dict : Meta) (out_data_path : Pth) : List Bool × List OrchEvent :=
  let cytosol := infer_cytosol C nuclei_object soma_mask true
  let out_file_n :=
    A.export_inferred_organelle cytosol "cytosol" meta_dict out_data_path
  let _ := out_file_n
  (cytosol, [.invokedAlgorithm, .exported cytosol, .printedWrote])

/-- Embedding of `get_cytosol` (cytosol.py lines 70-97): look up the cached
cytosol; on `None` compute and export, otherwise return the loaded mask.
A storage fault raised by the lookup is not caught and propagates. -/
def get_cytosol {Meta Pth : Type} (A : CytoPersist Meta Pth) (C : CytoPrims)
    (nuclei_obj soma_mask : List Bool) (meta_dict : Meta)
    (out_data_path : Pth) : Except PersistFault (List Bool × List OrchEvent) :=
  match A.import_inferred_organelle "cytosol" meta_dict out_data_path with
  | .error e => .error e
  | .ok none =>
      .ok (infer_and_export_cytosol A C nuclei_obj soma_mask meta_dict
        out_data_path)
  | .ok (some cytosol) => .ok (cytosol, [.printedLoaded])

/-- Modelled from the spec: `GOLGI_CH`, the fixed Golgi channel index from
`infer_subc_2d.constants` (a module not under src/).  The spec gives no
numeric value ("a fixed Golgi channel index"); the development only uses the
constant symbolically, so the chosen value is immaterial. -/
def GOLGI_CH : Nat := 1

/-- The primitive operators imported by `golgi.py`, embedded as abstract
functions over an abstract intensity-volume type `V` producing flattened
boolean masks.  `dot_3d_wrapper` is imported by the source but only appears
in a commented-out call; it is kept to state that the pipeline does not use
it.  Real-valued parameters are embedded as `Rat`. -/
structure GolgiPrims (V : Type) where
  select_channel_from_raw : V → Nat → V
  scale_and_smooth : V → Int → Rat → V
  masked_object_thresh : V → String → Int → Rat → List Bool
  topology_preserving_thinning : List Bool → Rat → Int → List Bool
  dot_2d_slice_by_slice_wrapper : V → List (Rat × Rat) → List Bool
  dot_3d_wrapper : V → List (Rat × Rat) → List Bool
  size_filter_linear_size : List Bool → Int → Nat → List Bool

/-- Embedding of `infer_golgi` (golgi.py lines 22-101): extract the Golgi
channel, smooth, masked-object threshold, topology-preserving thinning,
slice-by-slice dot detection on the smoothed volume, OR of the extra blobs
with the thinned mask, then size filtering with connectivity 1.  The source
performs no parameter validation and has no conditional on any parameter. -/
def infer_golgi {V : Type} (P : GolgiPrims V) (in_img : V) (median_sz : Int)
    (gauss_sig : Rat) (mo_method : String) (mo_adjust : Rat)
    (mo_cutoff_size : Int) (min_thickness : Rat) (thin : Int)
    (dot_scale : Rat) (dot_cut : Rat) (small_obj_w : Int) : List Bool :=
  let golgi_ch := GOLGI_CH
  let golgi := P.select_channel_from_raw in_img golgi_ch
  let golgi := P.scale_and_smooth golgi median_sz gauss_sig
  let bw := P.masked_object_thresh golgi mo_method mo_cutoff_size mo_adjust
  let bw_thin := P.topology_preserving_thinning bw min_thickness thin
  let s3_param := [(dot_cut, dot_scale)]
  let bw_extra := P.dot_2d_slice_by_slice_wrapper golgi s3_param
  let bw2 := logical_or bw_extra bw_thin
  let struct_obj := P.size_filter_linear_size bw2 small_obj_w 1
  struct_obj

/-- Embedding of `fixed_infer_golgi` (golgi.py lines 107-144): binds the
literal parameter values of the source (`mo_method = "tri"`,
`gauss_sig = 1.34`, ...) and forwards to `infer_golgi`.  The
`cytoplasm_mask` argument is accepted and never used, as in the source. -/
def fixed_infer_golgi {V : Type} (P : GolgiPrims V) (in_img : V)
    (cytoplasm_mask : Option (List Bool)) : List Bool :=
  let _ := cytoplasm_mask
  let median_sz : Int := 4
  let gauss_sig : Rat := 134 / 100
  let mo_method : String := "tri"
  let mo_adjust : Rat := 90 / 100
  let mo_cutoff_size : Int := 1200
  let min_thickness : Rat := 16 / 10
  let thin : Int := 1
  let dot_scale : Rat := 16 / 10
  let dot_cut : Rat := 2 / 100
  let small_obj_w : Int := 3
  infer_golgi P in_img median_sz gauss_sig mo_method mo_adjust mo_cutoff_size
    min_thickness thin dot_scale dot_cut small_obj_w

/-- Embedding of `infer_and_export_golgi` (golgi.py lines 147-170):
computes `fixed_infer_golgi`, exports the mask, prints, and returns the mask
with its observable actions. -/
def infer_and_export_golgi {V Meta Pth : Type} (A : GolgiPersist Meta Pth)
    (P : GolgiPrims V) (in_img : V) (meta_dict : Meta)
    (out_data_path : Pth) : List Bool × List OrchEvent :=
  let golgi := fixed_infer_golgi P in_img none
  let out_file_n :=
    A.export_inferred_organelle golgi "golgi" meta_dict out_data_path
  let _ := out_file_n
  (golgi, [.invokedAlgorithm, .exported golgi, .printedWrote])

/-- Embedding of `get_golgi` (golgi.py lines 173-199): try to load the
cached golgi; the bare `except:` of the source catches EVERY signal raised
by the lookup — not-found and storage faults alike — and falls through to
computing and exporting. -/
def get_golgi {V Meta Pth : Type} (A : GolgiPersist Meta Pth)
    (P : GolgiPrims V) (in_img : V) (meta_dict : Meta)
    (out_data_path : Pth) : List Bool × List OrchEvent :=
  match A.import_inferred_organelle "golgi" meta_dict out_data_path with
  | .ok golgi => (golgi, [])
  | .error _ =>
      let r := infer_and_export_golgi A P in_img meta_dict out_data_path
      (r.1, .printedStarting :: r.2 ++ [.printedTiming])

/-! ## Helper lemmas -/

theorem logical_or_comm (a b : List Bool) : logical_or a b = logical_or b a :=
  List.zipWith_comm_of_comm Bool.or (fun x y => Bool.or_comm x y) a b

theorem length_logical_or (a b : List Bool) :
    (logical_or a b).length = min a.length b.length :=
  List.length_zipWith Bool.or a b

theorem length_logical_xor (a b : List Bool) :
    (logical_xor a b).length = min a.length b.length :=
  List.length_zipWith Bool.xor a b

/-! ## Demo instantiations used by witnesses and counterexamples -/

/-- Concrete cytosol primitives used to evaluate concrete scenarios. -/
def cytoDemoPrims : CytoPrims :=
  ⟨fun n _ => n, fun n => n⟩

/-- Concrete golgi primitives over `V := Nat` whose masked-object threshold
distinguishes the method names `"tri"` and `"triangle"`. -/
def golgiDemoTri : GolgiPrims Nat :=
  ⟨fun v _ => v, fun v _ _ => v,
   fun _ m _ _ => if m = "tri" then [true] else [false],
   fun m _ _ => m, fun _ _ => [false], fun _ _ => [false], fun m _ _ => m⟩

/-! ## Claims about the organelle algorithms -/

/-- C4: for nucleus and soma masks of identical shape, `infer_cytosol`
returns the XOR of the soma mask with the unmasked nucleus (eroded once when
`erode_nuclei` is true, raw otherwise); the soma-masked nucleus computed by
`apply_mask` is discarded, so the result is independent of the `apply_mask`
primitive.  With an all-false 3x4x4 (48-voxel) nucleus, an all-true soma and
no erosion, the result is all-true. -/
theorem infer_cytosol_is_xor_of_unmasked_nucleus
    (am am' : List Bool → List Bool → List Bool)
    (be : List Bool → List Bool) (n s : List Bool) (e : Bool) :
    infer_cytosol ⟨am, be⟩ n s e = logical_xor s (if e then be n else n)
    ∧ infer_cytosol ⟨am, be⟩ n s e = infer_cytosol ⟨am', be⟩ n s e
    ∧ infer_cytosol cytoDemoPrims (List.replicate 48 false)
        (List.replicate 48 true) false = List.replicate 48 true := by
  refine ⟨?_, rfl, by decide⟩
  cases e <;> rfl

/-- The pipeline of spec section 4.2, written from the spec's words (channel
selection, smoothing, masked-object threshold, topology-preserving thinning,
slice-by-slice blob detection on the smoothed volume, OR of the thinned mask
with the blob mask, face-adjacency size filtering), to be compared with
`infer_golgi`. -/
def golgi_pipeline_spec {V : Type} (P : GolgiPrims V) (in_img : V)
    (median_sz : Int) (gauss_sig : Rat) (mo_method : String)
    (mo_adjust : Rat) (mo_cutoff_size : Int) (min_thickness : Rat)
    (thin : Int) (dot_scale : Rat) (dot_cut : Rat)
    (small_obj_w : Int) : List Bool :=
  let channel := P.select_channel_from_raw in_img GOLGI_CH
  let smoothed := P.scale_and_smooth channel median_sz gauss_sig
  let thresholded :=
    P.masked_object_thresh smoothed mo_method mo_cutoff_size mo_adjust
  let thinned :=
    P.topology_preserving_thinning thresholded min_thickness thin
  let blobs :=
    P.dot_2d_slice_by_slice_wrapper smoothed [(dot_cut, dot_scale)]
  let combined := logical_or thinned blobs
  P.size_filter_linear_size combined small_obj_w 1

/-- C5: `infer_golgi` equals the strictly ordered composition of spec 4.2:
extract, smooth, masked-object threshold, thinning, slice-by-slice blob
detection on the smoothed volume with the single pair `(dot_cut, dot_scale)`,
OR of the thinned and blob masks, then size filtering with connectivity 1.
Moreover the result does not use the fully-3D dot filter: it is unchanged
when the `dot_3d_wrapper` primitive is replaced by any other. -/
theorem infer_golgi_pipeline_order {V : Type}
    (sel : V → Nat → V) (sm : V → Int → Rat → V)
    (mo : V → String → Int → Rat → List Bool)
    (th : List Bool → Rat → Int → List Bool)
    (d2 d3 d3' : V → List (Rat × Rat) → List Bool)
    (szf : List Bool → Int → Nat → List Bool) (in_img : V)
    (median_sz : Int) (gauss_sig : Rat) (mo_method : String)
    (mo_adjust : Rat) (mo_cutoff_size : Int) (min_thickness : Rat)
    (thin : Int) (dot_scale : Rat) (dot_cut : Rat) (small_obj_w : Int) :
    infer_golgi ⟨sel, sm, mo, th, d2, d3, szf⟩ in_img median_sz gauss_sig
        mo_method mo_adjust mo_cutoff_size min_thickness thin dot_scale
        dot_cut small_obj_w
      = golgi_pipeline_spec ⟨sel, sm, mo, th, d2, d3, szf⟩ in_img median_sz
        gauss_sig mo_method mo_adjust mo_cutoff_size min_thickness thin
        dot_scale dot_cut small_obj_w
    ∧ infer_golgi ⟨sel, sm, mo, th, d2, d3, szf⟩ in_img median_sz gauss_sig
        mo_method mo_adjust mo_cutoff_size min_thickness thin dot_scale
        dot_cut small_obj_w
      = infer_golgi ⟨sel, sm, mo, th, d2, d3', szf⟩ in_img median_sz
        gauss_sig mo_method mo_adjust mo_cutoff_size min_thickness thin
        dot_scale dot_cut small_obj_w := by
  constructor
  · simp only [infer_golgi, golgi_pipeline_spec]
    rw [logical_or_comm]
  · rfl

/-- C6 counterexample: the preset does NOT pass `mo_method = "triangle"`.
With primitives whose masked-object threshold distinguishes the method names
`"tri"` and `"triangle"`, `fixed_infer_golgi` differs from `infer_golgi`
called with `"triangle"` and the remaining documented defaults. -/
theorem fixed_infer_golgi_not_triangle_cex :
    fixed_infer_golgi golgiDemoTri 0 none
      ≠ infer_golgi golgiDemoTri 0 4 (134 / 100) "triangle" (90 / 100) 1200
        (16 / 10) 1 (16 / 10) (2 / 100) 3 := by
  decide

/-- C6 (amended): `fixed_infer_golgi` equals `infer_golgi` with the literal
defaults of the source: `median_sz=4`, `gauss_sig=1.34`, `mo_method="tri"`
(the short synonym of `"triangle"` accepted by the threshold primitive),
`mo_adjust=0.90`, `mo_cutoff_size=1200`, `min_thickness=1.6`, `thin=1`,
`dot_scale=1.6`, `dot_cut=0.02`, `small_obj_w=3`. -/
theorem fixed_infer_golgi_defaults {V : Type} (P : GolgiPrims V) (v : V)
    (cytoplasm_mask : Option (List Bool)) :
    fixed_infer_golgi P v cytoplasm_mask
      = infer_golgi P v 4 (134 / 100) "tri" (90 / 100) 1200 (16 / 10) 1
        (16 / 10) (2 / 100) 3 :=
  rfl

/-- C7: the accepted `cytoplasm_mask` argument has no influence on the
result of `fixed_infer_golgi`: any two values (including `none`) give the
same output. -/
theorem fixed_infer_golgi_ignores_cytoplasm_mask {V : Type}
    (P : GolgiPrims V) (v : V) (m1 m2 : Option (List Bool)) :
    fixed_infer_golgi P v m1 = fixed_infer_golgi P v m2 :=
  rfl

/-- C9: determinism.  The source of `infer_golgi` and `infer_cytosol`
translates to total pure functions of their arguments — no state threading
is needed anywhere in the embedding — so for fixed inputs and a fixed
parameter set, repeated calls yield bit-identical masks. -/
theorem inference_deterministic {V : Type} (P : GolgiPrims V) (C : CytoPrims)
    (in_img : V) (median_sz : Int) (gauss_sig : Rat) (mo_method : String)
    (mo_adjust : Rat) (mo_cutoff_size : Int) (min_thickness : Rat)
    (thin : Int) (dot_scale : Rat) (dot_cut : Rat) (small_obj_w : Int)
    (n s : List Bool) (e : Bool) :
    infer_golgi P in_img median_sz gauss_sig mo_method mo_adjust
        mo_cutoff_size min_thickness thin dot_scale dot_cut small_obj_w
      = infer_golgi P in_img median_sz gauss_sig mo_method mo_adjust
        mo_cutoff_size min_thickness thin dot_scale dot_cut small_obj_w
    ∧ infer_cytosol C n s e = infer_cytosol C n s e :=
  ⟨rfl, rfl⟩

/-! ## Demo persistence adapters for witnesses and counterexamples -/

/-- Cytosol-side adapter whose lookup finds a cached mask. -/
def cytoDemoPersistHit : CytoPersist Unit Unit :=
  ⟨fun _ _ _ => .ok (some [true, false]), fun _ _ _ _ => "f"⟩

/-- Golgi-side adapter whose lookup finds a cached mask. -/
def golgiDemoPersistHit : GolgiPersist Unit Unit :=
  ⟨fun _ _ _ => .ok [false, true], fun _ _ _ _ => "f"⟩

/-- Cytosol-side adapter whose lookup raises a storage-layer fault. -/
def cytoDemoPersistFault : CytoPersist Unit Unit :=
  ⟨fun _ _ _ => .error .ioFailure, fun _ _ _ _ => "f"⟩

/-- Golgi-side adapter whose lookup raises a storage-layer fault. -/
def golgiDemoPersistFault : GolgiPersist Unit Unit :=
  ⟨fun _ _ _ => .error .ioFailure, fun _ _ _ _ => "f"⟩

/-- Cytosol-side adapter whose lookup reports an ordinary miss (`None`). -/
def cytoDemoPersistMiss : CytoPersist Unit Unit :=
  ⟨fun _ _ _ => .ok none, fun _ _ _ _ => "f"⟩

/-! ## Claims about the memoized orchestrators -/

/-- C1: cache short-circuit.  If the cytosol lookup yields a mask (non-None)
then `get_cytosol` returns exactly that mask with only the loaded-from-cache
log in its trace, and every successful trace of that call is free of
algorithm invocations; if the golgi lookup raises no signal then `get_golgi`
returns the loaded mask with an empty trace.  In both cases the organelle
algorithm is never invoked. -/
theorem cache_short_circuit {V Meta Pth : Type}
    (A : CytoPersist Meta Pth) (C : CytoPrims)
    (Ag : GolgiPersist Meta Pth) (P : GolgiPrims V)
    (n s m mg : List Bool) (in_img : V) (md : Meta) (pth : Pth)
    (hc : A.import_inferred_organelle "cytosol" md pth = .ok (some m))
    (hg : Ag.import_inferred_organelle "golgi" md pth = .ok mg) :
    get_cytosol A C n s md pth = .ok (m, [.printedLoaded])
    ∧ (∀ r evs, get_cytosol A C n s md pth = .ok (r, evs) →
        r = m ∧ OrchEvent.invokedAlgorithm ∉ evs)
    ∧ get_golgi Ag P in_img md pth = (mg, [])
    ∧ OrchEvent.invokedAlgorithm ∉ (get_golgi Ag P in_img md pth).2 := by
  have h1 : get_cytosol A C n s md pth = .ok (m, [.printedLoaded]) := by
    simp only [get_cytosol, hc]
  have h2 : get_golgi Ag P in_img md pth = (mg, []) := by
    simp only [get_golgi, hg]
  refine ⟨h1, ?_, h2, ?_⟩
  · intro r evs h
    rw [h1] at h
    simp only [Except.ok.injEq, Prod.mk.injEq] at h
    refine ⟨h.1.symm, ?_⟩
    rw [← h.2]
    decide
  · rw [h2]
    simp

/-- C1 witness at concrete adapters with cached masks. -/
theorem cache_short_circuit_witness :
    get_cytosol cytoDemoPersistHit cytoDemoPrims [] [] () ()
      = .ok ([true, false], [.printedLoaded])
    ∧ get_golgi golgiDemoPersistHit golgiDemoTri 0 () ()
      = ([false, true], []) := by
  have h := cache_short_circuit cytoDemoPersistHit cytoDemoPrims
    golgiDemoPersistHit golgiDemoTri [] [] [true, false] [false, true]
    0 () () rfl rfl
  exact ⟨h.1, h.2.2.1⟩

/-- C3 counterexample: a storage-layer fault during the golgi lookup is NOT
surfaced.  The bare `except:` of `get_golgi` catches it and treats it as a
cache miss: the call silently recomputes (trace contains the algorithm
invocation) and returns the computed mask; no error reaches the caller. -/
theorem get_golgi_swallows_fault_cex :
    get_golgi golgiDemoPersistFault golgiDemoTri 0 () ()
      = ([true], [.printedStarting, .invokedAlgorithm, .exported [true],
          .printedWrote, .printedTiming]) := by
  decide

/-- C3 (amended): `get_cytosol` surfaces a storage-layer fault raised during
lookup to the caller and never recomputes on it; but `get_golgi` catches
every lookup signal — storage faults included — and silently treats it as a
cache miss, recomputing and exporting with no error surfaced. -/
theorem persistence_fault_handling {V Meta Pth : Type}
    (A : CytoPersist Meta Pth) (C : CytoPrims)
    (Ag : GolgiPersist Meta Pth) (P : GolgiPrims V)
    (n s : List Bool) (in_img : V) (md : Meta) (pth : Pth)
    (hc : A.import_inferred_organelle "cytosol" md pth = .error .ioFailure)
    (hg : Ag.import_inferred_organelle "golgi" md pth = .error .ioFailure) :
    get_cytosol A C n s md pth = .error .ioFailure
    ∧ get_golgi Ag P in_img md pth
      = (fixed_infer_golgi P in_img none,
         [.printedStarting, .invokedAlgorithm,
          .exported (fixed_infer_golgi P in_img none), .printedWrote,
          .printedTiming])
    ∧ OrchEvent.invokedAlgorithm ∈ (get_golgi Ag P in_img md pth).2 := by
  have h1 : get_cytosol A C n s md pth = .error .ioFailure := by
    simp only [get_cytosol, hc]
  have h2 : get_golgi Ag P in_img md pth
      = (fixed_infer_golgi P in_img none,
         [.printedStarting, .invokedAlgorithm,
          .exported (fixed_infer_golgi P in_img none), .printedWrote,
          .printedTiming]) := by
    simp only [get_golgi, hg, infer_and_export_golgi]
    rfl
  refine ⟨h1, h2, ?_⟩
  rw [h2]
  simp

/-- C3 witness at concrete faulting adapters. -/
theorem persistence_fault_handling_witness :
    get_cytosol cytoDemoPersistFault cytoDemoPrims [] [] () ()
      = .error .ioFailure
    ∧ OrchEvent.invokedAlgorithm
      ∈ (get_golgi golgiDemoPersistFault golgiDemoTri 0 () ()).2 := by
  have h := persistence_fault_handling cytoDemoPersistFault cytoDemoPrims
    golgiDemoPersistFault golgiDemoTri [] [] 0 () () rfl rfl
  exact ⟨h.1, h.2.2⟩

/-- C10: on a cache miss (`None` lookup), the mask that `get_cytosol`
computes, exports and returns is `infer_cytosol` at its default
`erode_nuclei = true`, i.e. the XOR of the soma mask with the binary-eroded
nucleus; the `erode_nuclei = false` variant is not reachable through
`get_cytosol` / `infer_and_export_cytosol`, which expose no erosion flag. -/
theorem get_cytosol_miss_default_erosion {Meta Pth : Type}
    (A : CytoPersist Meta Pth) (C : CytoPrims) (n s : List Bool)
    (md : Meta) (pth : Pth)
    (h : A.import_inferred_organelle "cytosol" md pth = .ok none) :
    get_cytosol A C n s md pth
      = .ok (logical_xor s (C.binary_erosion n),
          [.invokedAlgorithm,
           .exported (logical_xor s (C.binary_erosion n)), .printedWrote])
    ∧ logical_xor s (C.binary_erosion n) = infer_cytosol C n s true := by
  constructor
  · simp only [get_cytosol, h, infer_and_export_cytosol]
    rfl
  · rfl

/-- C10 witness at a concrete missing-cache adapter. -/
theorem get_cytosol_miss_default_erosion_witness :
    get_cytosol cytoDemoPersistMiss cytoDemoPrims [true, false] [true, true]
        () ()
      = .ok (logical_xor [true, true]
            (cytoDemoPrims.binary_erosion [true, false]),
          [.invokedAlgorithm,
           .exported (logical_xor [true, true]
             (cytoDemoPrims.binary_erosion [true, false])), .printedWrote]) :=
  (get_cytosol_miss_default_erosion cytoDemoPersistMiss cytoDemoPrims
    [true, false] [true, true] () () rfl).1

/-! ## Parameter validation and shape claims -/

/-- Golgi primitives over `V := Nat` that tag the volume at each
volume-to-volume stage, so the final mask length certifies which stages
ran: channel selection adds 1, smoothing maps `v` to `100 * v + 2`, and the
threshold and dot filters emit a mask of length equal to the tag. -/
def golgiDemoStages : GolgiPrims Nat :=
  ⟨fun v _ => v + 1, fun v _ _ => v * 100 + 2,
   fun v _ _ _ => List.replicate v true, fun m _ _ => m,
   fun v _ => List.replicate v true, fun _ _ => [], fun m _ _ => m⟩

/-- C2 counterexample: with `mo_method = "bogus"` (outside the admissible
set) and negative `thin`, `min_thickness` and `small_obj_w`, the call to
`infer_golgi` does not raise anything: it returns an ordinary mask, and its
length 102 certifies that channel extraction (tag `+1`) and smoothing (tag
`*100+2`) were executed on this very call — no `InvalidParameter` rejection
happens before the pipeline computation. -/
theorem infer_golgi_invalid_params_cex :
    infer_golgi golgiDemoStages 0 4 (134 / 100) "bogus" (90 / 100) 1200
        (-1) (-1) (16 / 10) (2 / 100) (-1)
      = List.replicate 102 true := by
  decide

/-- C2 (amended): `infer_golgi` performs no parameter validation.  For every
parameter assignment outside the admissible domain (`mo_method` not in
{"triangle","median","ave"}, or negative `thin`, `min_thickness`,
`small_obj_w`), the call raises nothing and evaluates the full unconditional
pipeline — channel extraction and smoothing run first regardless; any
rejection can only arise inside a downstream primitive. -/
theorem infer_golgi_no_param_validation {V : Type} (P : GolgiPrims V)
    (in_img : V) (median_sz : Int) (gauss_sig : Rat) (mo_method : String)
    (mo_adjust : Rat) (mo_cutoff_size : Int) (min_thickness : Rat)
    (thin : Int) (dot_scale : Rat) (dot_cut : Rat) (small_obj_w : Int)
    (hinvalid : mo_method ∉ ["triangle", "median", "ave"]
      ∨ thin < 0 ∨ min_thickness < 0 ∨ small_obj_w < 0) :
    infer_golgi P in_img median_sz gauss_sig mo_method mo_adjust
        mo_cutoff_size min_thickness thin dot_scale dot_cut small_obj_w
      = P.size_filter_linear_size
          (logical_or
            (P.dot_2d_slice_by_slice_wrapper
              (P.scale_and_smooth
                (P.select_channel_from_raw in_img GOLGI_CH) median_sz
                gauss_sig)
              [(dot_cut, dot_scale)])
            (P.topology_preserving_thinning
              (P.masked_object_thresh
                (P.scale_and_smooth
                  (P.select_channel_from_raw in_img GOLGI_CH) median_sz
                  gauss_sig)
                mo_method mo_cutoff_size mo_adjust)
              min_thickness thin))
          small_obj_w 1 :=
  rfl

/-- C2 witness: the amended theorem applied at `mo_method = "bogus"` and
negative `thin`, `min_thickness`, `small_obj_w`. -/
theorem infer_golgi_no_param_validation_witness :
    infer_golgi golgiDemoStages 0 4 (134 / 100) "bogus" (90 / 100) 1200
        (-1) (-1) (16 / 10) (2 / 100) (-1)
      = golgiDemoStages.size_filter_linear_size
          (logical_or
            (golgiDemoStages.dot_2d_slice_by_slice_wrapper
              (golgiDemoStages.scale_and_smooth
                (golgiDemoStages.select_channel_from_raw 0 GOLGI_CH) 4
                (134 / 100))
              [((2 : Rat) / 100, (16 : Rat) / 10)])
            (golgiDemoStages.topology_preserving_thinning
              (golgiDemoStages.masked_object_thresh
                (golgiDemoStages.scale_and_smooth
                  (golgiDemoStages.select_channel_from_raw 0 GOLGI_CH) 4
                  (134 / 100))
                "bogus" 1200 (90 / 100))
              (-1) (-1)))
          (-1) 1 :=
  infer_golgi_no_param_validation golgiDemoStages 0 4 (134 / 100) "bogus"
    (90 / 100) 1200 (-1) (-1) (16 / 10) (2 / 100) (-1)
    (Or.inl (by decide))

/-- Golgi primitives over `V := Nat` where a volume is its voxel count:
channel selection changes the count, every other stage preserves it. -/
def golgiDemoSize : GolgiPrims Nat :=
  ⟨fun v _ => v + 3, fun v _ _ => v, fun v _ _ _ => List.replicate v false,
   fun m _ _ => m, fun v _ => List.replicate v false, fun _ _ => [],
   fun m _ _ => m⟩

/-- C8: shape preservation.  Assuming the primitive operators preserve voxel
counts (`sz` measures an abstract volume), the output of `infer_cytosol` has
the same length as its nucleus input (equal to the soma input by
precondition) and is boolean-valued by type, and the output of `infer_golgi`
has the same voxel count as the channel extracted by
`select_channel_from_raw` at `GOLGI_CH`. -/
theorem shape_preservation {V : Type} (sz : V → Nat) (P : GolgiPrims V)
    (C : CytoPrims) (n s : List Bool) (e : Bool) (in_img : V)
    (median_sz : Int) (gauss_sig : Rat) (mo_method : String)
    (mo_adjust : Rat) (mo_cutoff_size : Int) (min_thickness : Rat)
    (thin : Int) (dot_scale : Rat) (dot_cut : Rat) (small_obj_w : Int)
    (hns : n.length = s.length)
    (hbe : (C.binary_erosion n).length = n.length)
    (hsm : ∀ v msz g, sz (P.scale_and_smooth v msz g) = sz v)
    (hmo : ∀ v m c a, (P.masked_object_thresh v m c a).length = sz v)
    (hth : ∀ mk t i, (P.topology_preserving_thinning mk t i).length
      = mk.length)
    (hdot : ∀ v prm, (P.dot_2d_slice_by_slice_wrapper v prm).length = sz v)
    (hszf : ∀ mk w c, (P.size_filter_linear_size mk w c).length
      = mk.length) :
    (infer_cytosol C n s e).length = n.length
    ∧ (infer_golgi P in_img median_sz gauss_sig mo_method mo_adjust
        mo_cutoff_size min_thickness thin dot_scale dot_cut
        small_obj_w).length
      = sz (P.select_channel_from_raw in_img GOLGI_CH) := by
  constructor
  · cases e <;>
      simp [infer_cytosol, length_logical_xor, hbe, ← hns]
  · simp [infer_golgi, length_logical_or, hsm, hmo, hth, hdot, hszf]

/-- C8 witness at concrete count-preserving primitives. -/
theorem shape_preservation_witness :
    (infer_cytosol cytoDemoPrims [true, false] [true, false] true).length
      = ([true, false] : List Bool).length
    ∧ (infer_golgi golgiDemoSize 2 4 1 "tri" 1 1 1 1 1 1 3).length
      = id (golgiDemoSize.select_channel_from_raw 2 GOLGI_CH) :=
  shape_preservation id golgiDemoSize cytoDemoPrims [true, false]
    [true, false] true 2 4 1 "tri" 1 1 1 1 1 1 3 rfl rfl
    (fun _ _ _ => rfl) (fun _ _ _ _ => by simp [golgiDemoSize])
    (fun _ _ _ => rfl) (fun _ _ => by simp [golgiDemoSize])
    (fun _ _ _ => rfl)
